import Mathlib

/- Verification development for the QUIC reverse proxy (Go sources under
   internal/proxy, internal/config, pkg/health).  Go strings are modelled as
   Lean `String`; the Go standard-library string and path operations used by
   the proxy are re-implemented structurally below so that concrete instances
   evaluate inside the kernel.  Go `int`/`time.Duration` values are modelled
   as `Int` (durations in nanoseconds); the only place 32-bit overflow could
   matter (the round-robin cursor) wraps explicitly. -/

namespace QuicProxy

/-- Decidable equality for Except values (Go's (value, error) returns), so
that concrete runs of the loader and router can be checked by evaluation. -/
instance {ε α : Type} [DecidableEq ε] [DecidableEq α] : DecidableEq (Except ε α) := fun x y =>
  match x, y with
  | .ok a, .ok b =>
    if h : a = b then .isTrue (congrArg Except.ok h)
    else .isFalse (fun he => h (Except.ok.inj he))
  | .error a, .error b =>
    if h : a = b then .isTrue (congrArg Except.error h)
    else .isFalse (fun he => h (Except.error.inj he))
  | .ok _, .error _ => .isFalse (fun he => Except.noConfusion he)
  | .error _, .ok _ => .isFalse (fun he => Except.noConfusion he)

/-- Go strings.Split with a single-character separator (the proxy only splits
on ",", ":" and "/").  Mirrors Go: splitting the empty string yields [""]. -/
def splitCh (c : Char) : List Char → List (List Char)
  | [] => [[]]
  | x :: xs =>
    let r := splitCh c xs
    if x = c then [] :: r
    else
      match r with
      | s :: rest => (x :: s) :: rest
      | [] => [[x]]

/-- List-level prefix test (Go strings.HasPrefix on rune lists). -/
def isPfxOf : List Char → List Char → Bool
  | [], _ => true
  | _ :: _, [] => false
  | a :: as, b :: bs => a = b && isPfxOf as bs

/-- List-level substring test (Go strings.Contains on rune lists). -/
def isSubOf (p : List Char) : List Char → Bool
  | [] => isPfxOf p []
  | x :: xs => isPfxOf p (x :: xs) || isSubOf p xs

/-- Go strings.Split with a single-character separator, on `String`. -/
def goSplit (s : String) (c : Char) : List String :=
  (splitCh c s.toList).map (fun l => ⟨l⟩)

/-- Go strings.HasPrefix. -/
def goHasPfx (s p : String) : Bool := isPfxOf p.toList s.toList

/-- Go strings.HasSuffix. -/
def goHasSfx (s p : String) : Bool := isPfxOf p.toList.reverse s.toList.reverse

/-- Go strings.TrimPrefix. -/
def goTrimPfx (s p : String) : String :=
  if goHasPfx s p then ⟨s.toList.drop p.toList.length⟩ else s

/-- Go strings.TrimSuffix. -/
def goTrimSfx (s p : String) : String :=
  if goHasSfx s p then ⟨s.toList.take (s.toList.length - p.toList.length)⟩ else s

/-- Go strings.Contains. -/
def goContainsSub (s sub : String) : Bool := isSubOf sub.toList s.toList

/-- Go strings.Contains with a one-character needle (strings.Contains(pat, "*")). -/
def goContainsCh (s : String) (c : Char) : Bool := s.toList.contains c

/-- Go strings.Trim with a single-character cutset (strings.Trim(path, "/")). -/
def goTrimCh (s : String) (c : Char) : String :=
  ⟨((s.toList.dropWhile (· = c)).reverse.dropWhile (· = c)).reverse⟩

/-- Go strings.TrimSpace (restricted to ASCII whitespace, which is all the
proxy ever feeds it). -/
def goTrimSpace (s : String) : String :=
  ⟨((s.toList.dropWhile Char.isWhitespace).reverse.dropWhile Char.isWhitespace).reverse⟩

/-- Go strings.EqualFold, restricted to ASCII (method names). -/
def goEqFold (a b : String) : Bool :=
  a.toList.map Char.toLower = b.toList.map Char.toLower

/-- Join a list of strings with a separator (used by the path cleaner). -/
def joinSep (sep : String) : List String → String
  | [] => ""
  | [x] => x
  | x :: y :: xs => x ++ sep ++ joinSep sep (y :: xs)

/-- One step of Go path.Clean's ".."-resolution over already-filtered
segments (empty and "." segments removed). -/
def cleanStep (rooted : Bool) (acc : List String) (s : String) : List String :=
  if s = ".." then
    match acc with
    | [] => if rooted then [] else [".."]
    | a :: rest => if a = ".." then s :: a :: rest else rest
  else s :: acc

/-- Go path.Clean: collapse repeated slashes, drop "." segments, resolve ".."
segments (dropping them at the root), drop trailing slashes, and return "."
for an empty result on a relative path. -/
def goPathClean (p : String) : String :=
  if p = "" then "."
  else
    let rooted := goHasPfx p "/"
    let segs := (goSplit p '/').filter (fun s => !(s == "" || s == "."))
    let out := joinSep "/" ((segs.foldl (cleanStep rooted) []).reverse)
    if rooted then "/" ++ out
    else if out = "" then "." else out

/-! ## pkg/health/checker.go -/

/-- health.Config (pkg/health/checker.go).  Durations in nanoseconds. -/
structure HealthCfg where
  interval : Int
  timeout : Int
  healthyThreshold : Int
  unhealthyThreshold : Int
  deriving DecidableEq, Repr

/-- health.Checker's guarded state (pkg/health/checker.go).  The HTTP client
is omitted: the probe outcome is passed to `Checker.check` as a boolean. -/
structure Checker where
  baseURL : String
  path : String
  config : HealthCfg
  consecutiveSuccess : Int
  consecutiveFailure : Int
  isHealthy : Bool
  deriving DecidableEq, Repr

/-- health.NewChecker: apply defaults and start healthy with zero counters. -/
def newChecker (baseURL path : String) (cfg : HealthCfg) : Checker :=
  let cfg := if cfg.interval = 0 then { cfg with interval := 30000000000 } else cfg
  let cfg := if cfg.timeout = 0 then { cfg with timeout := 5000000000 } else cfg
  let cfg := if cfg.healthyThreshold = 0 then { cfg with healthyThreshold := 2 } else cfg
  let cfg := if cfg.unhealthyThreshold = 0 then { cfg with unhealthyThreshold := 3 } else cfg
  { baseURL := baseURL, path := path, config := cfg,
    consecutiveSuccess := 0, consecutiveFailure := 0, isHealthy := true }

/-- health.Checker.Check, with the probe outcome (`performCheck`) supplied as
`success`.  Returns the updated checker; Go's return value is its
`isHealthy` field. -/
def Checker.check (c : Checker) (success : Bool) : Checker :=
  if success then
    let c := { c with consecutiveSuccess := c.consecutiveSuccess + 1, consecutiveFailure := 0 }
    if !c.isHealthy && c.consecutiveSuccess ≥ c.config.healthyThreshold then
      { c with isHealthy := true }
    else c
  else
    let c := { c with consecutiveFailure := c.consecutiveFailure + 1, consecutiveSuccess := 0 }
    if c.isHealthy && c.consecutiveFailure ≥ c.config.unhealthyThreshold then
      { c with isHealthy := false }
    else c

/-- Apply a sequence of probe outcomes to a checker. -/
def Checker.checkSeq (c : Checker) (outcomes : List Bool) : Checker :=
  outcomes.foldl Checker.check c

/-! ## internal/config (types.go and the loader of part_003) -/

/-- config.QUICConfig. -/
structure QUICCfg where
  maxStreams : Int
  idleTimeout : Int
  keepAlive : Int
  enable0RTT : Bool
  maxTokenAge : Int
  congestionAlgorithm : String
  deriving DecidableEq, Repr

/-- config.ServerConfig. -/
structure ServerConfig where
  address : String
  certFile : String
  keyFile : String
  quic : QUICCfg
  fallbackAddress : String
  deriving DecidableEq, Repr

/-- config.HealthCheckConfig. -/
structure HealthCheckConfig where
  enabled : Bool
  path : String
  interval : Int
  timeout : Int
  healthyThreshold : Int
  unhealthyThreshold : Int
  deriving DecidableEq, Repr

/-- config.BackendConfig. -/
structure BackendConfig where
  name : String
  targets : List String
  healthCheck : HealthCheckConfig
  loadBalancer : String
  weight : Int
  timeout : Int
  retryCount : Int
  deriving DecidableEq, Repr

/-- config.RouteRule.  Go field names PathPrefix and StripPrefix are rendered
pathPfx and stripPfx. -/
structure RouteRule where
  path : String
  pathPfx : String
  host : String
  methods : List String
  headers : List (String × String)
  backend : String
  priority : Int
  stripPfx : Bool
  deriving DecidableEq, Repr

/-- config.RoutingConfig. -/
structure RoutingConfig where
  rules : List RouteRule
  defaultBackend : String
  deriving DecidableEq, Repr

/-- config.MetricsConfig. -/
structure MetricsConfig where
  enabled : Bool
  port : Int
  path : String
  collectionInterval : Int
  deriving DecidableEq, Repr

/-- config.TracingConfig.  Go's float64 sample rate is modelled as a rational;
the loader only defaults it to 0.1 and compares it with 0 and 1. -/
structure TracingConfig where
  enabled : Bool
  endpoint : String
  serviceName : String
  sampleRate : Rat
  deriving DecidableEq, Repr

/-- config.LoggingConfig. -/
structure LoggingConfig where
  level : String
  format : String
  output : String
  deriving DecidableEq, Repr

/-- config.TelemetryConfig. -/
structure TelemetryConfig where
  metrics : MetricsConfig
  tracing : TracingConfig
  logging : LoggingConfig
  deriving DecidableEq, Repr

/-- config.Config (internal/config/types.go, the variant with Routing that
the router consumes). -/
structure Config where
  server : ServerConfig
  backends : List BackendConfig
  routing : RoutingConfig
  telemetry : TelemetryConfig
  deriving DecidableEq, Repr

/-- Per-backend part of config.setDefaults (the loop body, including the
`continue` that skips health-check defaults when the check is disabled). -/
def backendDefaults (b : BackendConfig) : BackendConfig :=
  let b := if b.loadBalancer = "" then { b with loadBalancer := "round_robin" } else b
  let b := if b.weight = 0 then { b with weight := 1 } else b
  let b := if b.timeout = 0 then { b with timeout := 10000000000 } else b
  let b := if b.retryCount = 0 then { b with retryCount := 3 } else b
  if !b.healthCheck.enabled then b
  else
    let hc := b.healthCheck
    let hc := if hc.path = "" then { hc with path := "/health" } else hc
    let hc := if hc.interval = 0 then { hc with interval := 30000000000 } else hc
    let hc := if hc.timeout = 0 then { hc with timeout := 5000000000 } else hc
    let hc := if hc.healthyThreshold = 0 then { hc with healthyThreshold := 2 } else hc
    let hc := if hc.unhealthyThreshold = 0 then { hc with unhealthyThreshold := 3 } else hc
    { b with healthCheck := hc }

/-- config.setDefaults.  The Go function always returns nil error, so it is
modelled as a plain function. -/
def setDefaults (cfg : Config) : Config :=
  let srv := cfg.server
  let srv := if srv.address = "" then { srv with address := ":443" } else srv
  let srv := if srv.fallbackAddress = "" then { srv with fallbackAddress := ":80" } else srv
  let q := srv.quic
  let q := if q.maxStreams = 0 then { q with maxStreams := 1000 } else q
  let q := if q.idleTimeout = 0 then { q with idleTimeout := 30000000000 } else q
  let q := if q.keepAlive = 0 then { q with keepAlive := 15000000000 } else q
  let q := if q.maxTokenAge = 0 then { q with maxTokenAge := 86400000000000 } else q
  let q := if q.congestionAlgorithm = "" then { q with congestionAlgorithm := "cubic" } else q
  let srv := { srv with quic := q }
  let backends := cfg.backends.map backendDefaults
  let tel := cfg.telemetry
  let m := tel.metrics
  let m := if m.port = 0 then { m with port := 9090 } else m
  let m := if m.path = "" then { m with path := "/metrics" } else m
  let m := if m.collectionInterval = 0 then { m with collectionInterval := 15000000000 } else m
  let tr := tel.tracing
  let tr := if tr.serviceName = "" then { tr with serviceName := "quic-reverse-proxy" } else tr
  let tr := if tr.sampleRate = 0 then { tr with sampleRate := Rat.mk' 1 10 } else tr
  let lg := tel.logging
  let lg := if lg.level = "" then { lg with level := "info" } else lg
  let lg := if lg.format = "" then { lg with format := "json" } else lg
  { cfg with server := srv, backends := backends,
             telemetry := { metrics := m, tracing := tr, logging := lg } }

/-- The indexed backend loop of config.validate. -/
def validateBackends : Nat → List BackendConfig → Except String Unit
  | _, [] => .ok ()
  | i, b :: rest =>
    if b.name = "" then .error ("backend[" ++ toString i ++ "].name is required")
    else if b.targets = [] then .error ("backend[" ++ toString i ++ "].targets cannot be empty")
    else if !(["round_robin", "least_connections", "weighted"].contains b.loadBalancer) then
      .error ("invalid load balancer method: " ++ b.loadBalancer)
    else if ¬ b.weight > 0 then .error ("backend[" ++ toString i ++ "].weight must be positive")
    else if ¬ b.timeout > 0 then .error ("backend[" ++ toString i ++ "].timeout must be positive")
    else if b.retryCount < 0 then .error ("backend[" ++ toString i ++ "].retry_count cannot be negative")
    else validateBackends (i + 1) rest

/-- config.validate.  The os.Stat existence checks on the certificate and key
files are abstracted by the `fileExists` oracle.  Note the function never
inspects cfg.routing. -/
def validate (fileExists : String → Bool) (cfg : Config) : Except String Unit :=
  if cfg.server.certFile = "" then .error "server.cert_file is required"
  else if cfg.server.keyFile = "" then .error "server.key_file is required"
  else if !fileExists cfg.server.certFile then
    .error ("certificate file does not exist: " ++ cfg.server.certFile)
  else if !fileExists cfg.server.keyFile then
    .error ("private key file does not exist: " ++ cfg.server.keyFile)
  else if cfg.server.quic.maxStreams ≤ 0 then .error "quic.max_streams must be positive"
  else if cfg.server.quic.idleTimeout ≤ 0 then .error "quic.idle_timeout must be positive"
  else if cfg.server.quic.keepAlive ≤ 0 then .error "quic.keep_alive must be positive"
  else if !(["cubic", "bbr", "newreno"].contains cfg.server.quic.congestionAlgorithm) then
    .error ("invalid congestion algorithm: " ++ cfg.server.quic.congestionAlgorithm)
  else if cfg.backends = [] then .error "at least one backend must be configured"
  else
    match validateBackends 0 cfg.backends with
    | .error e => .error e
    | .ok () =>
      if cfg.telemetry.metrics.port ≤ 0 || cfg.telemetry.metrics.port > 65535 then
        .error "telemetry.metrics.port must be between 1 and 65535"
      else if cfg.telemetry.tracing.sampleRate < 0 || cfg.telemetry.tracing.sampleRate > 1 then
        .error "telemetry.tracing.sample_rate must be between 0 and 1"
      else if !(["debug", "info", "warn", "error"].contains cfg.telemetry.logging.level) then
        .error ("invalid logging level: " ++ cfg.telemetry.logging.level)
      else if !(["json", "text"].contains cfg.telemetry.logging.format) then
        .error ("invalid logging format: " ++ cfg.telemetry.logging.format)
      else .ok ()

/-- config.Load after the YAML has been parsed into a Config: apply defaults,
then validate (file reading and YAML decoding are not modelled). -/
def loadCheck (fileExists : String → Bool) (cfg : Config) : Except String Config :=
  match validate fileExists (setDefaults cfg) with
  | .error e => .error ("configuration validation failed: " ++ e)
  | .ok () => .ok (setDefaults cfg)

/-! ## HTTP requests and headers

Go's http.Header is a map from canonical MIME keys to value lists; the proxy
only ever reads and writes fixed, already-canonical keys, so headers are
modelled as an association list with Get returning the first value and Set
replacing every value for the key. -/

/-- Association-list lookup (string keys). -/
def lookupA {α : Type} (xs : List (String × α)) (k : String) : Option α :=
  (xs.find? (fun p => p.1 == k)).map (fun p => p.2)

/-- http.Header.Get: first value for the key, or "". -/
def hGet (hs : List (String × String)) (k : String) : String :=
  ((hs.find? (fun p => p.1 == k)).map (fun p => p.2)).getD ""

/-- http.Header.Set: replace all values for the key by the single value. -/
def hSet (hs : List (String × String)) (k v : String) : List (String × String) :=
  (hs.filter (fun p => !(p.1 == k))) ++ [(k, v)]

/-- The parts of *http.Request the proxy reads: URL path and query, Host,
method, headers and the transport peer address. -/
structure Request where
  path : String
  rawQuery : String
  host : String
  method : String
  headers : List (String × String)
  remoteAddr : String
  deriving DecidableEq, Repr

/-! ## internal/proxy: Router (second half of handler.go) -/

/-- The segment decomposition used by Router.matchWildcard:
strings.Split(strings.Trim(s, "/"), "/"). -/
def pathSegs (s : String) : List String := goSplit (goTrimCh s '/') '/'

/-- Router.matchWildcard: segment-wise comparison after trimming slashes;
"*" matches exactly one segment, and differing segment counts never match. -/
def matchWildcard (requestPath pat : String) : Bool :=
  let ps := pathSegs requestPath
  let qs := pathSegs pat
  ps.length == qs.length &&
    (List.zip qs ps).all (fun pq => pq.1 == "*" || pq.2 == pq.1)

/-- Router.matchPath: clean both paths, then exact match, trailing "/*"
wildcard match, or interior single-segment wildcard match. -/
def matchPath (requestPath pat : String) : Bool :=
  let rp := goPathClean requestPath
  let pat := goPathClean pat
  if rp == pat then true
  else if goHasSfx pat "/*" then
    let pfx := goTrimSfx pat "/*"
    if pfx == "" then true
    else goHasPfx rp (pfx ++ "/") || rp == pfx
  else if goContainsCh pat '*' then matchWildcard rp pat
  else false

/-- Router.matchRule: all declared predicates must hold (Go iterates the
Headers map; order is irrelevant since all entries must match). -/
def matchRule (req : Request) (rule : RouteRule) : Bool :=
  (rule.path == "" || matchPath req.path rule.path) &&
  (rule.pathPfx == "" || goHasPfx req.path rule.pathPfx) &&
  (rule.host == "" || req.host == rule.host) &&
  (rule.methods.isEmpty || rule.methods.any (fun m => goEqFold req.method m)) &&
  (rule.headers.isEmpty || rule.headers.all (fun kv => hGet req.headers kv.1 == kv.2))

/-- Runtime Router (rules sorted by descending priority, default backend
name, name-to-group index). -/
structure Router where
  rules : List RouteRule
  defaultBackend : String
  backends : List (String × BackendConfig)
  deriving DecidableEq, Repr

/-- Insert-or-replace for the name-to-group map (Go map assignment). -/
def insertA {α : Type} (xs : List (String × α)) (k : String) (v : α) : List (String × α) :=
  match xs with
  | [] => [(k, v)]
  | (k', v') :: rest => if k' == k then (k, v) :: rest else (k', v') :: insertA rest k v

/-- Descending insertion sort on rule priority.  Go uses an unstable
sort.Slice with `rules[i].Priority > rules[j].Priority`; order among equal
priorities is unspecified there and no claim depends on it. -/
def sortRulesDesc (rules : List RouteRule) : List RouteRule :=
  let rec ins (r : RouteRule) : List RouteRule → List RouteRule
    | [] => [r]
    | x :: xs => if r.priority > x.priority then r :: x :: xs else x :: ins r xs
  rules.foldr ins []

/-- NewRouter: build the backend map, sort the rules, and default the
default backend to the first configured group when none is set. -/
def newRouter (cfg : Config) : Except String Router :=
  if cfg.backends = [] then .error "no backends configured"
  else
    let backends := cfg.backends.foldl (fun m b => insertA m b.name b) []
    let rules := sortRulesDesc cfg.routing.rules
    let defB :=
      if cfg.routing.defaultBackend = "" then
        match cfg.backends with
        | [] => cfg.routing.defaultBackend
        | b :: _ => b.name
      else cfg.routing.defaultBackend
    .ok { rules := rules, defaultBackend := defB, backends := backends }

/-- Router.Route: first matching rule in sorted order, else the default
backend when it resolves, else the not-found error. -/
def route (router : Router) (req : Request) : Except String BackendConfig :=
  match router.rules.find? (fun rule => matchRule req rule) with
  | some rule =>
    match lookupA router.backends rule.backend with
    | some b => .ok b
    | none => .error ("backend not found: " ++ rule.backend)
  | none =>
    if router.defaultBackend ≠ "" then
      match lookupA router.backends router.defaultBackend with
      | some b => .ok b
      | none => .error ("no matching route found for: " ++ req.method ++ " " ++ req.path)
    else .error ("no matching route found for: " ++ req.method ++ " " ++ req.path)

/-- Router.ShouldStripPrefix: scan the sorted rules for the first matching
rule with strip_prefix set that yields a usable prefix (path_prefix if
present, else the literal part of a path pattern ending in "/*"). -/
def shouldStripPfx (rules : List RouteRule) (req : Request) : Bool × String :=
  match rules with
  | [] => (false, "")
  | rule :: rest =>
    if matchRule req rule && rule.stripPfx then
      if rule.pathPfx ≠ "" then (true, rule.pathPfx)
      else if rule.path ≠ "" && goHasSfx rule.path "/*" then (true, goTrimSfx rule.path "/*")
      else shouldStripPfx rest req
    else shouldStripPfx rest req

/-! ## internal/proxy/loadbalancer.go

Backends are heap objects shared between lb.backends and the per-group map
backendsByName; the model keeps a single backend store and lets the groups
map hold indices into it.  Health flags and connection counters are the
atomic fields of the Go struct. -/

/-- proxy.Backend (the health checker pointer is represented by membership
of the backend's name in LoadBalancer.healthCheckers). -/
structure Backend where
  name : String
  url : String
  weight : Int
  healthy : Bool
  connections : Int
  deriving DecidableEq, Repr

/-- proxy.LoadBalancer.  groups is backendsByName with indices into the
backend store; healthCheckers records which backend names got a checker. -/
structure LoadBalancer where
  backends : List Backend
  groups : List (String × List Nat)
  algorithm : String
  rrIndex : List (String × Int)
  healthCheckers : List String
  deriving DecidableEq, Repr

instance : Inhabited LoadBalancer :=
  ⟨{ backends := [], groups := [], algorithm := "", rrIndex := [], healthCheckers := [] }⟩

/-- Update the backend at an index (the other entries alias unchanged). -/
def modifyAt (bs : List Backend) (i : Nat) (f : Backend → Backend) : List Backend :=
  match bs, i with
  | [], _ => []
  | b :: rest, 0 => f b :: rest
  | b :: rest, Nat.succ j => b :: modifyAt rest j f

/-- Backend.IsHealthy at an index of the store. -/
def healthyAt (lb : LoadBalancer) (i : Nat) : Bool :=
  ((lb.backends.get? i).map Backend.healthy).getD false

/-- Backend.GetConnections at an index of the store. -/
def connsAt (lb : LoadBalancer) (i : Nat) : Int :=
  ((lb.backends.get? i).map Backend.connections).getD 0

/-- Backend weight at an index of the store. -/
def weightAt (lb : LoadBalancer) (i : Nat) : Int :=
  ((lb.backends.get? i).map Backend.weight).getD 0

/-- Backend.IncrementConnections. -/
def incConns (lb : LoadBalancer) (i : Nat) : LoadBalancer :=
  { lb with backends := modifyAt lb.backends i (fun b => { b with connections := b.connections + 1 }) }

/-- Backend.DecrementConnections (the deferred goroutine in every pick). -/
def decConns (lb : LoadBalancer) (i : Nat) : LoadBalancer :=
  { lb with backends := modifyAt lb.backends i (fun b => { b with connections := b.connections - 1 }) }

/-- One config's loop body in NewLoadBalancer: append a backend per target
(initially healthy), register checkers when the health check is enabled,
group the new indices under the config name, seed the round-robin cursor,
and keep the first config's load-balancer algorithm. -/
def addConfig (lb : LoadBalancer) (cfg : BackendConfig) : LoadBalancer :=
  let start := lb.backends.length
  let newBackends := cfg.targets.map (fun t =>
    { name := cfg.name ++ "-" ++ t, url := t, weight := cfg.weight,
      healthy := true, connections := 0 })
  let idxs := (List.range cfg.targets.length).map (fun j => start + j)
  let checkers :=
    if cfg.healthCheck.enabled then cfg.targets.map (fun t => cfg.name ++ "-" ++ t) else []
  { backends := lb.backends ++ newBackends
    groups := insertA lb.groups cfg.name idxs
    algorithm := if lb.algorithm = "" then cfg.loadBalancer else lb.algorithm
    rrIndex := insertA lb.rrIndex cfg.name 0
    healthCheckers := lb.healthCheckers ++ checkers }

/-- NewLoadBalancer.  Errors only on an empty config list (url.Parse accepts
every target string the loader admits, so that error path is not modelled). -/
def newLoadBalancer (configs : List BackendConfig) : Option LoadBalancer :=
  if configs = [] then none
  else some (configs.foldl addConfig
    { backends := [], groups := [], algorithm := "", rrIndex := [], healthCheckers := [] })

/-- Two's-complement wrap of the int32 round-robin cursor. -/
def wrap32 (x : Int) : Int := (x + 2 ^ 31) % 2 ^ 32 - 2 ^ 31

/-- LoadBalancer.roundRobinForConfig on the healthy index list: bump the
per-config cursor and index the healthy set modulo its size.  A negative
index (cursor wrap) would panic in Go and is modelled as no selection. -/
def roundRobinForConfig (lb : LoadBalancer) (name : String) (hlist : List Nat) :
    Option Nat × LoadBalancer :=
  if hlist = [] then (none, lb)
  else
    let cur := (lookupA lb.rrIndex name).getD 0
    let next := wrap32 (cur + 1)
    let k := (next - 1).tmod hlist.length
    if k < 0 then (none, lb)
    else
      match hlist.get? k.toNat with
      | none => (none, lb)
      | some i => (some i, incConns { lb with rrIndex := insertA lb.rrIndex name next } i)

/-- The loop body of LoadBalancer.leastConnections: Go keeps the first
backend seen while minConnections is the -1 sentinel or the count is
strictly smaller than the running minimum. -/
def lcStep (lb : LoadBalancer) (acc : Option Nat × Int) (i : Nat) : Option Nat × Int :=
  let c := connsAt lb i
  if acc.2 == -1 || c < acc.2 then (some i, c) else acc

/-- LoadBalancer.leastConnections on the healthy index list, including Go's
sentinel minConnections = -1. -/
def leastConnections (lb : LoadBalancer) (hlist : List Nat) : Option Nat × LoadBalancer :=
  if hlist = [] then (none, lb)
  else
    let acc := hlist.foldl (lcStep lb) (none, -1)
    match acc.1 with
    | some i => (some i, incConns lb i)
    | none => (none, lb)

/-- The accumulation loop of LoadBalancer.weighted. -/
def weightedWalk (lb : LoadBalancer) (rand : Int) : List Nat → Int → Option Nat
  | [], _ => none
  | i :: rest, cw =>
    let cw := cw + weightAt lb i
    if rand < cw then some i else weightedWalk lb rand rest cw

/-- LoadBalancer.weighted on the healthy index list.  rand.Intn(total) is
modelled by reducing the caller-supplied draw into [0, total); Go panics on
a negative total, modelled as no selection.  The final `return backends[0]`
fallback does not increment the connection count in Go. -/
def weighted (lb : LoadBalancer) (rnd : Int) (hlist : List Nat) : Option Nat × LoadBalancer :=
  if hlist = [] then (none, lb)
  else
    let total := hlist.foldl (fun s i => s + weightAt lb i) 0
    if total = 0 then roundRobinForConfig lb "default" hlist
    else if total < 0 then (none, lb)
    else
      let rand := rnd.emod total
      match weightedWalk lb rand hlist 0 with
      | some i => (some i, incConns lb i)
      | none =>
        match hlist with
        | i :: _ => (some i, lb)
        | [] => (none, lb)

/-- LoadBalancer.GetBackendForConfig: look the group up, filter to healthy
backends, return none when the healthy set is empty, otherwise dispatch on
the balancer's single global algorithm. -/
def getBackendForConfig (lb : LoadBalancer) (name : String) (rnd : Int) :
    Option Nat × LoadBalancer :=
  match lookupA lb.groups name with
  | none => (none, lb)
  | some idxs =>
    if idxs = [] then (none, lb)
    else
      let hlist := idxs.filter (fun i => healthyAt lb i)
      if hlist = [] then (none, lb)
      else
        match lb.algorithm with
        | "round_robin" => roundRobinForConfig lb name hlist
        | "least_connections" => leastConnections lb hlist
        | "weighted" => weighted lb rnd hlist
        | _ => roundRobinForConfig lb name hlist

/-- The loop body of a StartHealthChecks tick: find the first backend whose
name matches the checker's key and overwrite its healthy flag with the
probe-driven state-machine output. -/
def setHealthyByName (bs : List Backend) (n : String) (v : Bool) : List Backend :=
  match bs with
  | [] => []
  | b :: rest => if b.name == n then { b with healthy := v } :: rest else b :: setHealthyByName rest n v

/-- One health-check tick for the checker registered under name n. -/
def applyHealthTick (lb : LoadBalancer) (n : String) (v : Bool) : LoadBalancer :=
  { lb with backends := setHealthyByName lb.backends n v }

/-! ## internal/proxy/handler.go (request handler) -/

/-- The transport-error classification of createReverseProxy's ErrorHandler. -/
def isTransportErr (msg : String) : Bool :=
  goContainsSub msg "connection refused" || goContainsSub msg "no such host" ||
    goContainsSub msg "timeout"

/-- createReverseProxy's ErrorHandler effect on backend i after an upstream
failure with the given error text: a transport error sets the backend
unhealthy immediately (no counting); other errors leave the flag alone. -/
def applyPassiveFailure (lb : LoadBalancer) (i : Nat) (msg : String) : LoadBalancer :=
  if isTransportErr msg then
    { lb with backends := modifyAt lb.backends i (fun b => { b with healthy := false }) }
  else lb

/-- Handler.getClientIP: first entry of X-Forwarded-For if present, else
X-Real-IP, else the text before the first ":" of RemoteAddr. -/
def getClientIP (r : Request) : String :=
  let fromRemote : String :=
    match goSplit r.remoteAddr ':' with
    | ip :: _ => ip
    | [] => ""
  let fromXRealIP : String :=
    let xrip := hGet r.headers "X-Real-IP"
    if xrip ≠ "" then goTrimSpace xrip else fromRemote
  let xff := hGet r.headers "X-Forwarded-For"
  if xff ≠ "" then
    match goSplit xff ',' with
    | p :: _ => goTrimSpace p
    | [] => fromXRealIP
  else fromXRealIP

/-- Handler.addProxyHeaders: extend X-Forwarded-For with getClientIP's
value, then set X-Real-IP from getClientIP of the updated request, then set
X-Forwarded-Proto.  Both getClientIP calls happen on the same mutated
request, exactly as in Go. -/
def addProxyHeaders (r : Request) : Request :=
  let r1 :=
    let ip := getClientIP r
    if ip ≠ "" then
      let ex := hGet r.headers "X-Forwarded-For"
      if ex ≠ "" then { r with headers := hSet r.headers "X-Forwarded-For" (ex ++ ", " ++ ip) }
      else { r with headers := hSet r.headers "X-Forwarded-For" ip }
    else r
  let r2 :=
    let ip := getClientIP r1
    if ip ≠ "" then { r1 with headers := hSet r1.headers "X-Real-IP" ip } else r1
  { r2 with headers := hSet r2.headers "X-Forwarded-Proto" "https" }

/-- The observable result of Handler.ServeHTTP: the local /health response,
an error response written by handleError, or a dispatch of the rewritten
request to the selected backend. -/
inductive Outcome where
  | localHealth : Outcome
  | errResp (status : Nat) (body : String) : Outcome
  | forward (backendIdx : Nat) (upstreamReq : Request) : Outcome
  deriving DecidableEq, Repr

/-- The prefix-stripping block of Handler.ServeHTTP: trim the prefix when
stripping was requested with a nonempty prefix, rewriting an emptied path
to "/". -/
def stripApply (path : String) (sp : Bool × String) : String :=
  if sp.1 && sp.2 ≠ "" then
    let p := goTrimPfx path sp.2
    if p = "" then "/" else p
  else path

/-- Handler.ServeHTTP up to the dispatch point: /health short-circuit,
routing (an error renders 404), prefix stripping, backend selection (none
renders 503), proxy-header rewriting. -/
def serveHTTP (router : Router) (lb : LoadBalancer) (r : Request) (rnd : Int) :
    Outcome × LoadBalancer :=
  if r.path = "/health" then (.localHealth, lb)
  else
    match route router r with
    | .error e => (.errResp 404 ("routing error: " ++ e), lb)
    | .ok bcfg =>
      let r1 := { r with path := stripApply r.path (shouldStripPfx router.rules r) }
      match getBackendForConfig lb bcfg.name rnd with
      | (none, lb') => (.errResp 503 "no healthy backends available", lb')
      | (some i, lb') => (.forward i (addProxyHeaders r1), lb')

/-- The mutating operations the running proxy performs on load-balancer
state between reconfigurations (UpdateBackends is deliberately excluded):
backend selection, the deferred connection decrement of a pick, a health
tick of a registered checker, and the handler's passive-failure path. -/
inductive LBStep : LoadBalancer → LoadBalancer → Prop where
  | pick (lb : LoadBalancer) (name : String) (rnd : Int) :
      LBStep lb (getBackendForConfig lb name rnd).2
  | connDone (lb : LoadBalancer) (i : Nat) : LBStep lb (decConns lb i)
  | healthTick (lb : LoadBalancer) (n : String) (v : Bool) :
      n ∈ lb.healthCheckers → LBStep lb (applyHealthTick lb n v)
  | passiveFail (lb : LoadBalancer) (i : Nat) (msg : String) :
      LBStep lb (applyPassiveFailure lb i msg)

/-- The algorithm NewLoadBalancer ends up with: the first nonempty
load_balancer field among the configs (spec-side characterization of the
`if lb.algorithm == ""` assignment in the config loop). -/
def firstAlgo : List BackendConfig → String
  | [] => ""
  | c :: rest => if c.loadBalancer = "" then firstAlgo rest else c.loadBalancer

/-! ## Concrete scenarios used by counterexamples and witnesses -/

/-- A disabled health check (config zero value with enabled=false). -/
def hcOff : HealthCheckConfig := ⟨false, "", 0, 0, 0, 0⟩

/-- Group g1: one target, round_robin, health check disabled. -/
def cfgG1 : BackendConfig := ⟨"g1", ["http://a"], hcOff, "round_robin", 1, 1, 0⟩

/-- Group g2: two targets, least_connections, health check disabled. -/
def cfgG2 : BackendConfig := ⟨"g2", ["http://u1", "http://u2"], hcOff, "least_connections", 1, 1, 0⟩

/-- The load balancer built from groups g1 and g2. -/
def lbDemo : LoadBalancer := (newLoadBalancer [cfgG1, cfgG2]).getD default

/-- lbDemo after two picks from g2 and the deferred connection decrement of
the second pick: backend 1 (g2-http://u1) has one in-flight connection,
backend 2 (g2-http://u2) has none. -/
def lbDemoAfter : LoadBalancer :=
  decConns (getBackendForConfig (getBackendForConfig lbDemo "g2" 0).2 "g2" 0).2 2

/-- The load balancer built from group g1 alone. -/
def lbG1 : LoadBalancer := (newLoadBalancer [cfgG1]).getD default

/-- A connection-refused error string as produced by Go's net package. -/
def refusedMsg : String := "dial tcp 127.0.0.1:8001: connect: connection refused"

/-- lbG1 after the handler's passive-failure path on its only backend. -/
def lbG1Down : LoadBalancer := applyPassiveFailure lbG1 0 refusedMsg

/-- A server section that passes validation when its files exist. -/
def srvDemo : ServerConfig := ⟨"", "cert.pem", "key.pem", ⟨0, 0, 0, false, 0, ""⟩, ""⟩

/-- A telemetry section that passes validation after defaults. -/
def telDemo : TelemetryConfig := ⟨⟨false, 0, "", 0⟩, ⟨false, "", "", 0⟩, ⟨"", "", ""⟩⟩

/-- A high-priority rule for /api that routes to g1 without stripping. -/
def ruleKeep : RouteRule := ⟨"", "/api", "", [], [], "g1", 10, false⟩

/-- A low-priority rule for /api that routes to g2 with strip_prefix=true. -/
def ruleStrip : RouteRule := ⟨"", "/api", "", [], [], "g2", 5, true⟩

/-- A config with both /api rules and no default backend. -/
def cfgTwoRules : Config := ⟨srvDemo, [cfgG1, cfgG2], ⟨[ruleKeep, ruleStrip], ""⟩, telDemo⟩

/-- The router built from cfgTwoRules. -/
def routerTwoRules : Router := (newRouter cfgTwoRules).toOption.getD ⟨[], "", []⟩

/-- A GET request for /api/x with a query string. -/
def reqApiX : Request := ⟨"/api/x", "q=1", "h", "GET", [], "9.9.9.9:1"⟩

/-- A config with one group, no routing rules and no default backend. -/
def cfgNoDefault : Config := ⟨srvDemo, [cfgG1], ⟨[], ""⟩, telDemo⟩

/-- The router built from cfgNoDefault. -/
def routerNoDefault : Router := (newRouter cfgNoDefault).toOption.getD ⟨[], "", []⟩

/-- A GET request matched by no rule. -/
def reqPlain : Request := ⟨"/zzz", "", "h", "GET", [], "1.2.3.4:5678"⟩

/-- A request arriving with an X-Forwarded-For chain "a, b" from peer
1.2.3.4:5678. -/
def reqChain : Request := ⟨"/x", "", "h", "GET", [("X-Forwarded-For", "a, b")], "1.2.3.4:5678"⟩

/-- A config whose routing rule and default backend name undefined groups
("nope" and "alsoNope") while everything else validates. -/
def cfgDangling : Config :=
  ⟨srvDemo, [⟨"g1", ["http://a"], hcOff, "", 0, 0, 0⟩],
   ⟨[⟨"/x", "", "", [], [], "nope", 0, false⟩], "alsoNope"⟩, telDemo⟩

/-- The checker of claim C3: healthy_threshold=2, unhealthy_threshold=3. -/
def chkDemo : Checker := newChecker "http://b" "/health" ⟨0, 0, 2, 3⟩

/-- Two load-balancer states agree on health checkers and on every
backend's name and healthy flag (they may differ in connection counts and
round-robin cursors). -/
def SameShape (lb lb' : LoadBalancer) : Prop :=
  lb'.healthCheckers = lb.healthCheckers ∧
  ∀ i : Nat,
    (lb'.backends.get? i).map Backend.name = (lb.backends.get? i).map Backend.name ∧
    (lb'.backends.get? i).map Backend.healthy = (lb.backends.get? i).map Backend.healthy

/-! ## Helper lemmas -/

theorem modifyAt_get? (bs : List Backend) (f : Backend → Backend) (i j : Nat) :
    (modifyAt bs i f).get? j = if i = j then (bs.get? j).map f else bs.get? j := by
  induction bs generalizing i j with
  | nil => cases i <;> cases j <;> simp [modifyAt]
  | cons b rest ih =>
    cases i with
    | zero => cases j <;> simp [modifyAt]
    | succ i =>
      cases j with
      | zero => simp [modifyAt]
      | succ j => simpa [modifyAt] using ih i j

theorem healthyAt_incConns (lb : LoadBalancer) (k i : Nat) :
    healthyAt (incConns lb k) i = healthyAt lb i := by
  simp only [healthyAt, incConns, modifyAt_get?]
  split
  · cases lb.backends.get? i <;> rfl
  · rfl

theorem healthyAt_decConns (lb : LoadBalancer) (k i : Nat) :
    healthyAt (decConns lb k) i = healthyAt lb i := by
  simp only [healthyAt, decConns, modifyAt_get?]
  split
  · cases lb.backends.get? i <;> rfl
  · rfl

theorem healthyAt_rrUpdate (lb : LoadBalancer) (x : List (String × Int)) (i : Nat) :
    healthyAt { lb with rrIndex := x } i = healthyAt lb i := rfl

theorem rr_pick_mem {lb : LoadBalancer} {name : String} {hlist : List Nat} {i : Nat}
    (h : (roundRobinForConfig lb name hlist).1 = some i) : i ∈ hlist := by
  simp only [roundRobinForConfig] at h
  split at h
  · simp at h
  · split at h
    · simp at h
    · split at h
      · simp at h
      · next j hj =>
        simp at h
        subst h
        exact List.get?_mem hj

theorem lc_fold_mem (lb : LoadBalancer) (hlist : List Nat) (acc : Option Nat × Int) (j : Nat)
    (h : (hlist.foldl (lcStep lb) acc).1 = some j) : acc.1 = some j ∨ j ∈ hlist := by
  induction hlist generalizing acc with
  | nil => exact Or.inl h
  | cons x xs ih =>
    rw [List.foldl_cons] at h
    rcases ih (lcStep lb acc x) h with h' | h'
    · simp only [lcStep] at h'
      split at h'
      · simp at h'
        subst h'
        exact Or.inr (List.mem_cons_self _ _)
      · exact Or.inl h'
    · exact Or.inr (List.mem_cons_of_mem _ h')

theorem lc_pick_mem {lb : LoadBalancer} {hlist : List Nat} {i : Nat}
    (h : (leastConnections lb hlist).1 = some i) : i ∈ hlist := by
  simp only [leastConnections] at h
  split at h
  · simp at h
  · split at h
    · next j hj =>
      simp at h
      subst h
      rcases lc_fold_mem lb hlist (none, -1) j hj with h' | h'
      · simp at h'
      · exact h'
    · simp at h

theorem walk_mem {lb : LoadBalancer} {rand : Int} {hlist : List Nat} {cw : Int} {i : Nat}
    (h : weightedWalk lb rand hlist cw = some i) : i ∈ hlist := by
  induction hlist generalizing cw with
  | nil => simp [weightedWalk] at h
  | cons x xs ih =>
    simp only [weightedWalk] at h
    split at h
    · injection h with h
      subst h
      exact List.mem_cons_self _ _
    · exact List.mem_cons_of_mem _ (ih h)

theorem weighted_pick_mem {lb : LoadBalancer} {rnd : Int} {hlist : List Nat} {i : Nat}
    (h : (weighted lb rnd hlist).1 = some i) : i ∈ hlist := by
  simp only [weighted] at h
  split at h
  · simp at h
  · split at h
    · exact rr_pick_mem h
    · split at h
      · simp at h
      · split at h
        · next j hj =>
          simp at h
          subst h
          exact walk_mem hj
        · split at h
          · next j tl hl =>
            simp at h
            subst h
            simp [hl]
          · simp at h

theorem pick_some_healthy {lb : LoadBalancer} {name : String} {rnd : Int} {i : Nat}
    (h : (getBackendForConfig lb name rnd).1 = some i) : healthyAt lb i = true := by
  simp only [getBackendForConfig] at h
  split at h
  · simp at h
  · next idxs hidx =>
    split at h
    · simp at h
    · split at h
      · simp at h
      · have hmem : i ∈ idxs.filter (fun i => healthyAt lb i) := by
          split at h
          · exact rr_pick_mem h
          · exact lc_pick_mem h
          · exact weighted_pick_mem h
          · exact rr_pick_mem h
        have := List.mem_filter.mp hmem
        simpa using this.2

theorem pick_none_of_unhealthy {lb : LoadBalancer} {name : String} {rnd : Int} {idxs : List Nat}
    (hg : lookupA lb.groups name = some idxs)
    (hall : ∀ i ∈ idxs, healthyAt lb i = false) :
    getBackendForConfig lb name rnd = (none, lb) := by
  have hfil : idxs.filter (fun i => healthyAt lb i) = [] := by
    rw [List.filter_eq_nil_iff]
    intro a ha
    simp [hall a ha]
  by_cases he : idxs = []
  · simp [getBackendForConfig, hg, he]
  · simp [getBackendForConfig, hg, he, hfil]

theorem serve_503_of_unhealthy {router : Router} {lb : LoadBalancer} {r : Request} {rnd : Int}
    {bcfg : BackendConfig} {idxs : List Nat}
    (hp : r.path ≠ "/health") (hr : route router r = .ok bcfg)
    (hg : lookupA lb.groups bcfg.name = some idxs)
    (hall : ∀ i ∈ idxs, healthyAt lb i = false) :
    serveHTTP router lb r rnd = (.errResp 503 "no healthy backends available", lb) := by
  simp only [serveHTTP, if_neg hp, hr, pick_none_of_unhealthy hg hall]

theorem serve_forward_healthy {router : Router} {lb : LoadBalancer} {r : Request} {rnd : Int}
    {i : Nat} {req' : Request}
    (h : (serveHTTP router lb r rnd).1 = .forward i req') : healthyAt lb i = true := by
  simp only [serveHTTP] at h
  split at h
  · simp at h
  · split at h
    · simp at h
    · next bcfg hroute =>
      split at h
      · simp at h
      · next j lb' hpick =>
        simp at h
        obtain ⟨hj, -⟩ := h
        subst hj
        exact pick_some_healthy (by rw [hpick])

theorem healthyAt_rr (lb : LoadBalancer) (name : String) (hlist : List Nat) (i : Nat) :
    healthyAt (roundRobinForConfig lb name hlist).2 i = healthyAt lb i := by
  simp only [roundRobinForConfig]
  split
  · rfl
  · split
    · rfl
    · split
      · rfl
      · rw [healthyAt_incConns]
        rfl

theorem healthyAt_lc (lb : LoadBalancer) (hlist : List Nat) (i : Nat) :
    healthyAt (leastConnections lb hlist).2 i = healthyAt lb i := by
  simp only [leastConnections]
  split
  · rfl
  · split
    · exact healthyAt_incConns _ _ _
    · rfl

theorem healthyAt_weighted (lb : LoadBalancer) (rnd : Int) (hlist : List Nat) (i : Nat) :
    healthyAt (weighted lb rnd hlist).2 i = healthyAt lb i := by
  simp only [weighted]
  split
  · rfl
  · split
    · exact healthyAt_rr _ _ _ _
    · split
      · rfl
      · split
        · exact healthyAt_incConns _ _ _
        · split
          · rfl
          · rfl

theorem healthyAt_pick (lb : LoadBalancer) (name : String) (rnd : Int) (i : Nat) :
    healthyAt (getBackendForConfig lb name rnd).2 i = healthyAt lb i := by
  simp only [getBackendForConfig]
  split
  · rfl
  · split
    · rfl
    · split
      · rfl
      · split
        · exact healthyAt_rr _ _ _ _
        · exact healthyAt_lc _ _ _
        · exact healthyAt_weighted _ _ _ _
        · exact healthyAt_rr _ _ _ _

theorem applyPassiveFailure_transport {lb : LoadBalancer} {i : Nat} {msg : String} {b : Backend}
    (ht : isTransportErr msg = true) (hb : lb.backends.get? i = some b) :
    (applyPassiveFailure lb i msg).backends.get? i = some { b with healthy := false } := by
  have hbk : (applyPassiveFailure lb i msg).backends =
      modifyAt lb.backends i (fun b => { b with healthy := false }) := by
    simp [applyPassiveFailure, ht]
  rw [hbk, modifyAt_get?, if_pos rfl, hb]
  rfl

theorem applyPassiveFailure_other {lb : LoadBalancer} {i : Nat} {msg : String}
    (ht : isTransportErr msg = false) : applyPassiveFailure lb i msg = lb := by
  simp [applyPassiveFailure, ht]

/-! ## Claim theorems -/

/-- C3: with unhealthy_threshold=3 and healthy_threshold=2, starting
Healthy, the probe sequence F,F,F ejects; F,F,S does not; from the ejected
state S,S recovers; S,F,S stays Unhealthy (as does the prefix S), and
S,F,S,S recovers only at the final step. -/
theorem c3_flap_damping :
    chkDemo.isHealthy = true ∧
    chkDemo.config.unhealthyThreshold = 3 ∧ chkDemo.config.healthyThreshold = 2 ∧
    (chkDemo.checkSeq [false, false, false]).isHealthy = false ∧
    (chkDemo.checkSeq [false, false, true]).isHealthy = true ∧
    ((chkDemo.checkSeq [false, false, false]).checkSeq [true, true]).isHealthy = true ∧
    ((chkDemo.checkSeq [false, false, false]).checkSeq [true]).isHealthy = false ∧
    ((chkDemo.checkSeq [false, false, false]).checkSeq [true, false]).isHealthy = false ∧
    ((chkDemo.checkSeq [false, false, false]).checkSeq [true, false, true]).isHealthy = false ∧
    ((chkDemo.checkSeq [false, false, false]).checkSeq [true, false, true, true]).isHealthy = true := by
  decide

/-- C9 counterexample: a config whose only routing rule targets the
undefined group "nope" and whose default_backend is the undefined
"alsoNope" is accepted by the loader (defaults plus validation) — Load does
not fail, contradicting the claim that it fails whenever a routing
reference is undefined. -/
theorem c9_counterexample :
    loadCheck (fun _ => true) cfgDangling = .ok (setDefaults cfgDangling) ∧
    cfgDangling.routing.rules.map RouteRule.backend = ["nope"] ∧
    cfgDangling.routing.defaultBackend = "alsoNope" ∧
    cfgDangling.backends.map BackendConfig.name = ["g1"] ∧
    (setDefaults cfgDangling).routing = cfgDangling.routing ∧
    (setDefaults cfgDangling).backends.map BackendConfig.name = ["g1"] ∧
    "nope" ≠ "g1" ∧ "alsoNope" ≠ "g1" := by
  decide

/-- C9 amended: config validation checks the server, QUIC, backend and
telemetry sections only and never inspects the routing section, so whether
rule backends or the default_backend resolve to defined groups has no
effect on Load's outcome; dangling references surface only at request time
as routing errors. -/
theorem c9_validate_ignores_routing :
    ∀ (fe : String → Bool) (cfg : Config) (r₁ r₂ : RoutingConfig),
      validate fe (setDefaults { cfg with routing := r₁ }) =
        validate fe (setDefaults { cfg with routing := r₂ }) := by
  intro fe cfg r₁ r₂
  rfl

/-- C2 counterexample: group g1's backend has no health checker and starts
healthy; a single transport failure observed by the handler's ErrorHandler
(connection refused) sets its healthy flag to false directly — no
consecutive-failure counting and no health state machine involved. -/
theorem c2_counterexample :
    lbG1.healthCheckers = [] ∧
    healthyAt lbG1 0 = true ∧
    isTransportErr refusedMsg = true ∧
    lbG1Down = applyPassiveFailure lbG1 0 refusedMsg ∧
    healthyAt lbG1Down 0 = false := by
  decide

/-- C4 counterexample: with g1 (round_robin) listed first and g2 configured
least_connections, the balancer's single global algorithm is round_robin;
after two picks from g2 and the deferred decrement of the second pick,
backend 1 has one in-flight connection and backend 2 has none, yet the next
pick for g2 returns backend 1 — least_connections would have returned
backend 2, so g2 is not balanced under its own configured strategy. -/
theorem c4_counterexample :
    newLoadBalancer [cfgG1, cfgG2] = some lbDemo ∧
    cfgG2.loadBalancer = "least_connections" ∧
    lbDemo.algorithm = "round_robin" ∧
    lookupA lbDemoAfter.groups "g2" = some [1, 2] ∧
    healthyAt lbDemoAfter 1 = true ∧ healthyAt lbDemoAfter 2 = true ∧
    connsAt lbDemoAfter 1 = 1 ∧ connsAt lbDemoAfter 2 = 0 ∧
    (getBackendForConfig lbDemoAfter "g2" 0).1 = some 1 ∧
    (leastConnections lbDemoAfter [1, 2]).1 = some 2 := by
  decide

/-- C5 counterexample: with one group g1, no routing rules and no
default_backend configured, the router does not return NotFound for an
unmatched request — NewRouter substitutes the first configured group, the
request routes to g1 and is forwarded, not answered 404. -/
theorem c5_counterexample :
    cfgNoDefault.routing.defaultBackend = "" ∧
    newRouter cfgNoDefault = .ok routerNoDefault ∧
    routerNoDefault.rules = [] ∧
    routerNoDefault.defaultBackend = "g1" ∧
    route routerNoDefault reqPlain = .ok cfgG1 ∧
    (serveHTTP routerNoDefault lbG1 reqPlain 0).1 = .forward 0 (addProxyHeaders reqPlain) := by
  decide

/-- C6 counterexample: for an inbound request with X-Forwarded-For "a, b"
from peer 1.2.3.4:5678, the upstream chain is "a, b, a" — the appended
value is the first entry of the inbound chain, not the transport peer
address — and X-Real-IP is "a", not the peer address. -/
theorem c6_counterexample :
    reqChain.remoteAddr = "1.2.3.4:5678" ∧
    hGet (addProxyHeaders reqChain).headers "X-Forwarded-For" = "a, b, a" ∧
    "a, b, a" ≠ "a, b, 1.2.3.4" ∧
    hGet (addProxyHeaders reqChain).headers "X-Real-IP" = "a" ∧
    "a" ≠ "1.2.3.4" := by
  decide

/-- C1: GetBackendForConfig never returns a backend whose healthy flag is
unset; when every backend of the group is unhealthy it returns none with
the state unchanged, and ServeHTTP then answers 503 with body "no healthy
backends available" instead of forwarding; any forwarded request goes to a
backend that was healthy at selection time. -/
theorem c1_pick_healthy_only :
    (∀ (lb : LoadBalancer) (name : String) (rnd : Int) (i : Nat),
        (getBackendForConfig lb name rnd).1 = some i → healthyAt lb i = true) ∧
    (∀ (lb : LoadBalancer) (name : String) (rnd : Int) (idxs : List Nat),
        lookupA lb.groups name = some idxs → (∀ i ∈ idxs, healthyAt lb i = false) →
        getBackendForConfig lb name rnd = (none, lb)) ∧
    (∀ (router : Router) (lb : LoadBalancer) (r : Request) (rnd : Int)
        (bcfg : BackendConfig) (idxs : List Nat),
        r.path ≠ "/health" → route router r = .ok bcfg →
        lookupA lb.groups bcfg.name = some idxs → (∀ i ∈ idxs, healthyAt lb i = false) →
        serveHTTP router lb r rnd = (.errResp 503 "no healthy backends available", lb)) ∧
    (∀ (router : Router) (lb : LoadBalancer) (r : Request) (rnd : Int) (i : Nat) (req' : Request),
        (serveHTTP router lb r rnd).1 = .forward i req' → healthyAt lb i = true) :=
  ⟨fun _ _ _ _ h => pick_some_healthy h,
   fun _ _ _ _ hg hall => pick_none_of_unhealthy hg hall,
   fun _ _ _ _ _ _ hp hr hg hall => serve_503_of_unhealthy hp hr hg hall,
   fun _ _ _ _ _ _ h => serve_forward_healthy h⟩

/-- C1 witness: the statement instantiated on the demo balancers — a pick
from g2 returns healthy backend 1; with g1's only backend down the pick
returns none and the handler answers 503; and the forwarded request on the
healthy balancer goes to healthy backend 0. -/
theorem c1_witness :
    healthyAt lbDemo 1 = true ∧
    getBackendForConfig lbG1Down "g1" 0 = (none, lbG1Down) ∧
    serveHTTP routerNoDefault lbG1Down reqPlain 0 =
      (.errResp 503 "no healthy backends available", lbG1Down) ∧
    healthyAt lbDemo 0 = true :=
  ⟨c1_pick_healthy_only.1 lbDemo "g2" 0 1 (by decide),
   c1_pick_healthy_only.2.1 lbG1Down "g1" 0 [0] (by decide) (by decide),
   c1_pick_healthy_only.2.2.1 routerNoDefault lbG1Down reqPlain 0 cfgG1 [0]
     (by decide) (by decide) (by decide) (by decide),
   c1_pick_healthy_only.2.2.2 routerNoDefault lbDemo reqPlain 0 0
     (addProxyHeaders reqPlain) (by decide)⟩

/-- C2 amended: the healthy flag is written by the health-check tick and,
directly, by the handler's passive error path — a single upstream error
whose text contains "connection refused", "no such host" or "timeout" sets
the flag to false immediately, with no consecutive-failure counting; other
errors leave the state untouched, and neither selection nor the deferred
connection decrement ever writes the flag. -/
theorem c2_passive_failure_is_direct :
    (∀ (lb : LoadBalancer) (i : Nat) (msg : String) (b : Backend),
        isTransportErr msg = true → lb.backends.get? i = some b →
        (applyPassiveFailure lb i msg).backends.get? i = some { b with healthy := false }) ∧
    (∀ (lb : LoadBalancer) (i : Nat) (msg : String),
        isTransportErr msg = false → applyPassiveFailure lb i msg = lb) ∧
    (∀ (lb : LoadBalancer) (name : String) (rnd : Int) (i : Nat),
        healthyAt (getBackendForConfig lb name rnd).2 i = healthyAt lb i) ∧
    (∀ (lb : LoadBalancer) (k i : Nat), healthyAt (decConns lb k) i = healthyAt lb i) :=
  ⟨fun _ _ _ _ ht hb => applyPassiveFailure_transport ht hb,
   fun _ _ _ ht => applyPassiveFailure_other ht,
   fun lb name rnd i => healthyAt_pick lb name rnd i,
   fun lb k i => healthyAt_decConns lb k i⟩

/-- C2 witness: the statement instantiated on g1's balancer — one
connection-refused error flips backend 0 to unhealthy, while a
non-transport error ("context canceled") changes nothing. -/
theorem c2_witness :
    (applyPassiveFailure lbG1 0 refusedMsg).backends.get? 0 =
      some { name := "g1-http://a", url := "http://a", weight := 1,
             healthy := false, connections := 0 } ∧
    applyPassiveFailure lbG1 0 "context canceled" = lbG1 :=
  ⟨c2_passive_failure_is_direct.1 lbG1 0 refusedMsg
     { name := "g1-http://a", url := "http://a", weight := 1, healthy := true, connections := 0 }
     (by decide) (by decide),
   c2_passive_failure_is_direct.2.1 lbG1 0 "context canceled" (by decide)⟩

/-- The algorithm field accumulated by the NewLoadBalancer config loop. -/
theorem foldl_addConfig_algorithm (configs : List BackendConfig) (lb : LoadBalancer) :
    (configs.foldl addConfig lb).algorithm =
      if lb.algorithm = "" then firstAlgo configs else lb.algorithm := by
  induction configs generalizing lb with
  | nil => by_cases h : lb.algorithm = "" <;> simp [firstAlgo, h]
  | cons c cs ih =>
    rw [List.foldl_cons, ih]
    by_cases h : lb.algorithm = ""
    · by_cases hc : c.loadBalancer = "" <;> simp [addConfig, h, hc, firstAlgo]
    · simp [addConfig, h]

/-- C4 amended: NewLoadBalancer keeps one global algorithm — the first
nonempty load_balancer field among the configs — and GetBackendForConfig
dispatches every group's pick on that global algorithm, so a later group's
own configured strategy is ignored (see the counterexample, where g2
configured least_connections is balanced round-robin). -/
theorem c4_global_algorithm :
    ∀ (configs : List BackendConfig) (lb : LoadBalancer),
      newLoadBalancer configs = some lb → lb.algorithm = firstAlgo configs := by
  intro configs lb h
  unfold newLoadBalancer at h
  split at h
  · simp at h
  · injection h with h
    rw [← h, foldl_addConfig_algorithm]
    simp

/-- C4 witness: on the demo configs the global algorithm is g1's
round_robin, not g2's least_connections. -/
theorem c4_witness : lbDemo.algorithm = firstAlgo [cfgG1, cfgG2] :=
  c4_global_algorithm [cfgG1, cfgG2] lbDemo (by decide)

/-- C6 amended: the value appended to X-Forwarded-For (and written to
X-Real-IP) is getClientIP's result, which prefers the first entry of the
inbound chain over the transport peer address: whatever the peer address
is, an inbound chain "a, b" yields client IP "a", upstream chain "a, b, a"
and X-Real-IP "a". -/
theorem c6_client_ip_from_inbound_chain :
    ∀ remoteAddress : String,
      getClientIP { path := "/x", rawQuery := "", host := "h", method := "GET",
                    headers := [("X-Forwarded-For", "a, b")],
                    remoteAddr := remoteAddress } = "a" ∧
      hGet (addProxyHeaders { path := "/x", rawQuery := "", host := "h", method := "GET",
                              headers := [("X-Forwarded-For", "a, b")],
                              remoteAddr := remoteAddress }).headers "X-Forwarded-For" = "a, b, a" ∧
      hGet (addProxyHeaders { path := "/x", rawQuery := "", host := "h", method := "GET",
                              headers := [("X-Forwarded-For", "a, b")],
                              remoteAddr := remoteAddress }).headers "X-Real-IP" = "a" :=
  fun _ => ⟨rfl, rfl, rfl⟩

theorem lookupA_insertA_self {α : Type} (m : List (String × α)) (k : String) (v : α) :
    lookupA (insertA m k v) k = some v := by
  induction m with
  | nil => simp [insertA, lookupA]
  | cons p rest ih =>
    by_cases hk : p.1 = k
    · simp [insertA, hk, lookupA]
    · have hb : (p.1 == k) = false := beq_eq_false_iff_ne.mpr hk
      simp only [insertA, hb, Bool.false_eq_true, if_false]
      simpa [lookupA, List.find?, hb] using ih

theorem lookupA_foldl_isSome (bs : List BackendConfig) (m : List (String × BackendConfig))
    (k : String)
    (h : (lookupA m k).isSome = true ∨ ∃ b ∈ bs, b.name = k) :
    (lookupA (bs.foldl (fun m b => insertA m b.name b) m) k).isSome = true := by
  induction bs generalizing m with
  | nil =>
    rcases h with h | h
    · exact h
    · simp at h
  | cons b rest ih =>
    rw [List.foldl_cons]
    apply ih
    by_cases hb : b.name = k
    · left
      rw [hb, lookupA_insertA_self]
      rfl
    · rcases h with h | h
      · left
        have hne : ∀ (m' : List (String × BackendConfig)),
            lookupA (insertA m' b.name b) k = lookupA m' k := by
          intro m'
          induction m' with
          | nil => simp [insertA, lookupA, List.find?, beq_eq_false_iff_ne.mpr hb]
          | cons q qs ihq =>
            by_cases hq : q.1 = b.name
            · simp [insertA, hq, lookupA, List.find?, beq_eq_false_iff_ne.mpr hb]
            · have hqb : (q.1 == b.name) = false := beq_eq_false_iff_ne.mpr hq
              simp only [insertA, hqb, Bool.false_eq_true, if_false]
              by_cases hqk : q.1 = k
              · simp [lookupA, List.find?, hqk]
              · have hqk' : (q.1 == k) = false := beq_eq_false_iff_ne.mpr hqk
                simpa [lookupA, List.find?, hqk'] using ihq
        rw [hne m]
        exact h
      · rcases h with ⟨b', hb', hname⟩
        rcases List.mem_cons.mp hb' with rfl | hmem
        · exact absurd hname hb
        · exact Or.inr ⟨b', hmem, hname⟩

/-- C5 amended: for a request no rule matches, the router falls back to the
configured default_backend when one is set (a dangling name yields the
not-found error that the handler renders 404); when none is configured,
NewRouter substitutes the first configured group's name, so the request is
routed to that group rather than answered NotFound. -/
theorem c5_default_substitution :
    ∀ (cfg : Config) (router : Router) (req : Request),
      newRouter cfg = .ok router →
      router.rules.find? (fun rule => matchRule req rule) = none →
      ((cfg.routing.defaultBackend ≠ "" →
          route router req =
            (match lookupA router.backends cfg.routing.defaultBackend with
             | some b => Except.ok b
             | none =>
               Except.error ("no matching route found for: " ++ req.method ++ " " ++ req.path))) ∧
       (cfg.routing.defaultBackend = "" →
          ∀ (b₀ : BackendConfig) (rest : List BackendConfig),
            cfg.backends = b₀ :: rest → b₀.name ≠ "" →
            ∃ g, route router req = .ok g)) := by
  intro cfg router req hnew hfind
  unfold newRouter at hnew
  split at hnew
  · exact absurd hnew (by simp)
  · next hne =>
    injection hnew with hnew
    subst hnew
    constructor
    · intro hdb
      unfold route
      rw [hfind]
      simp only [if_neg hdb]
      rw [if_pos (by simpa using hdb)]
    · intro hdb b₀ rest hbs hn0
      unfold route
      rw [hfind]
      simp only [hdb, if_pos, hbs]
      have hsome : (lookupA (cfg.backends.foldl (fun m b => insertA m b.name b) []) b₀.name).isSome
          = true := by
        apply lookupA_foldl_isSome
        exact Or.inr ⟨b₀, by rw [hbs]; exact List.mem_cons_self _ _, rfl⟩
      rw [hbs] at hsome
      obtain ⟨g, hg⟩ := Option.isSome_iff_exists.mp hsome
      rw [if_pos (by simpa using hn0)]
      rw [hg]
      exact ⟨g, rfl⟩

/-- C5 witness: on the no-default config, the unmatched request is routed
to some group (namely g1) instead of NotFound. -/
theorem c5_witness : ∃ g, route routerNoDefault reqPlain = .ok g :=
  (c5_default_substitution cfgNoDefault routerNoDefault reqPlain (by decide) (by decide)).2
    rfl cfgG1 [] rfl (by decide)

/-- C7 counterexample: for /api/x the router matches the high-priority rule
(ruleKeep, strip_prefix=false, backend g1), yet ShouldStripPrefix keeps
scanning and finds the lower-priority ruleStrip, so the handler strips
"/api" and forwards /x — the strip is not governed by the rule the router
matched. -/
theorem c7_counterexample :
    routerTwoRules.rules = [ruleKeep, ruleStrip] ∧
    routerTwoRules.rules.find? (fun rule => matchRule reqApiX rule) = some ruleKeep ∧
    ruleKeep.stripPfx = false ∧
    route routerTwoRules reqApiX = .ok cfgG1 ∧
    shouldStripPfx routerTwoRules.rules reqApiX = (true, "/api") ∧
    (serveHTTP routerTwoRules lbDemo reqApiX 0).1 =
      .forward 0 (addProxyHeaders { reqApiX with path := "/x" }) ∧
    "/x" ≠ reqApiX.path := by
  decide

theorem shouldStrip_from_some_rule {rules : List RouteRule} {req : Request} {p : String}
    (h : shouldStripPfx rules req = (true, p)) :
    ∃ rule ∈ rules, matchRule req rule = true ∧ rule.stripPfx = true ∧
      ((rule.pathPfx ≠ "" ∧ p = rule.pathPfx) ∨
       (rule.pathPfx = "" ∧ rule.path ≠ "" ∧ goHasSfx rule.path "/*" = true ∧
        p = goTrimSfx rule.path "/*")) := by
  induction rules with
  | nil => simp [shouldStripPfx] at h
  | cons rule rest ih =>
    simp only [shouldStripPfx] at h
    split at h
    · next hms =>
      have hms' : matchRule req rule = true ∧ rule.stripPfx = true := by simpa using hms
      split at h
      · next hp =>
        injection h with h1 h2
        exact ⟨rule, List.mem_cons_self _ _, hms'.1, hms'.2, Or.inl ⟨hp, h2.symm⟩⟩
      · next hp =>
        split at h
        · next hpath =>
          injection h with h1 h2
          refine ⟨rule, List.mem_cons_self _ _, hms'.1, hms'.2, Or.inr ?_⟩
          obtain ⟨ha, hb⟩ : rule.path ≠ "" ∧ goHasSfx rule.path "/*" = true := by
            simpa using hpath
          refine ⟨?_, ha, hb, h2.symm⟩
          push_neg at hp
          exact hp
        · obtain ⟨r, hr, hrest⟩ := ih h
          exact ⟨r, List.mem_cons_of_mem _ hr, hrest⟩
    · obtain ⟨r, hr, hrest⟩ := ih h
      exact ⟨r, List.mem_cons_of_mem _ hr, hrest⟩

theorem addProxyHeaders_fields (r : Request) :
    (addProxyHeaders r).path = r.path ∧ (addProxyHeaders r).rawQuery = r.rawQuery ∧
    (addProxyHeaders r).method = r.method ∧ (addProxyHeaders r).host = r.host := by
  refine ⟨?_, ?_, ?_, ?_⟩ <;> (unfold addProxyHeaders; dsimp only; split_ifs <;> rfl)

theorem serve_forward_path {router : Router} {lb : LoadBalancer} {r : Request} {rnd : Int}
    {i : Nat} {req' : Request}
    (h : (serveHTTP router lb r rnd).1 = .forward i req') :
    req'.rawQuery = r.rawQuery ∧
    req'.path = stripApply r.path (shouldStripPfx router.rules r) ∧
    req'.method = r.method ∧ req'.host = r.host := by
  simp only [serveHTTP] at h
  split at h
  · simp at h
  · split at h
    · simp at h
    · next bcfg hroute =>
      split at h
      · simp at h
      · next j lb' hpick =>
        simp at h
        obtain ⟨-, hreq⟩ := h
        subst hreq
        obtain ⟨h1, h2, h3, h4⟩ := addProxyHeaders_fields
          { r with path := stripApply r.path (shouldStripPfx router.rules r) }
        exact ⟨h2, h1, h3, h4⟩

/-- C7 amended: stripping is governed not by the rule the router matched but
by the first matching rule (in priority order) that has strip_prefix=true
and a usable prefix — its path_prefix when nonempty, else the literal part
of its path pattern before a trailing "/*".  The forwarded request's path
equals the original path with that prefix trimmed ("/" when the trim
empties it), and the query string is unchanged. -/
theorem c7_strip_prefix_scan :
    (∀ (rules : List RouteRule) (req : Request) (p : String),
        shouldStripPfx rules req = (true, p) →
        ∃ rule ∈ rules, matchRule req rule = true ∧ rule.stripPfx = true ∧
          ((rule.pathPfx ≠ "" ∧ p = rule.pathPfx) ∨
           (rule.pathPfx = "" ∧ rule.path ≠ "" ∧ goHasSfx rule.path "/*" = true ∧
            p = goTrimSfx rule.path "/*"))) ∧
    (∀ (router : Router) (lb : LoadBalancer) (r : Request) (rnd : Int) (i : Nat) (req' : Request),
        (serveHTTP router lb r rnd).1 = .forward i req' →
        req'.rawQuery = r.rawQuery ∧
        req'.path = stripApply r.path (shouldStripPfx router.rules r)) :=
  ⟨fun _ _ _ h => shouldStrip_from_some_rule h,
   fun _ _ _ _ _ _ h => ⟨(serve_forward_path h).1, (serve_forward_path h).2.1⟩⟩

/-- C7 witness: on the two-rule router, the strip decision (true, "/api")
comes from some matching strip rule, and the forwarded request for /api/x
carries the stripped path and the untouched query string. -/
theorem c7_witness :
    (∃ rule ∈ routerTwoRules.rules, matchRule reqApiX rule = true ∧ rule.stripPfx = true ∧
        ((rule.pathPfx ≠ "" ∧ "/api" = rule.pathPfx) ∨
         (rule.pathPfx = "" ∧ rule.path ≠ "" ∧ goHasSfx rule.path "/*" = true ∧
          "/api" = goTrimSfx rule.path "/*"))) ∧
    (addProxyHeaders { reqApiX with path := "/x" }).rawQuery = reqApiX.rawQuery ∧
    (addProxyHeaders { reqApiX with path := "/x" }).path =
      stripApply reqApiX.path (shouldStripPfx routerTwoRules.rules reqApiX) :=
  ⟨c7_strip_prefix_scan.1 routerTwoRules.rules reqApiX "/api" (by decide),
   c7_strip_prefix_scan.2 routerTwoRules lbDemo reqApiX 0 0
     (addProxyHeaders { reqApiX with path := "/x" }) (by decide)⟩

theorem matchPath_star_all (p : String) : matchPath p "/*" = true := by
  unfold matchPath
  by_cases h : (goPathClean p == goPathClean "/*") = true
  · rw [if_pos h]
  · rw [if_neg h]
    rfl

theorem matchPath_seg_count {p pat : String}
    (hsfx : goHasSfx (goPathClean pat) "/*" = false)
    (hstar : goContainsCh (goPathClean pat) '*' = true)
    (hlen : (pathSegs (goPathClean p)).length ≠ (pathSegs (goPathClean pat)).length) :
    matchPath p pat = false := by
  unfold matchPath
  dsimp only
  have hne : (goPathClean p == goPathClean pat) = false := by
    apply beq_eq_false_iff_ne.mpr
    intro he
    exact hlen (by rw [he])
  rw [hne]
  simp only [Bool.false_eq_true, if_false, hsfx, hstar, if_true]
  unfold matchWildcard
  have hlb : ((pathSegs (goPathClean p)).length == (pathSegs (goPathClean pat)).length) = false :=
    beq_eq_false_iff_ne.mpr hlen
  simp [pathSegs] at hlb
  simp [pathSegs, hlb]

/-- C8: the pattern /api/* matches /api, /api/, /api/x and /api/x/y but not
/apix; the pattern /* matches every path; an interior single-segment *
matches exactly one segment, and a wildcard pattern that does not end in
"/*" never matches a path whose (cleaned) segment count differs from the
pattern's. -/
theorem c8_wildcard_semantics :
    (matchPath "/api" "/api/*" = true ∧ matchPath "/api/" "/api/*" = true ∧
     matchPath "/api/x" "/api/*" = true ∧ matchPath "/api/x/y" "/api/*" = true ∧
     matchPath "/apix" "/api/*" = false) ∧
    (∀ p : String, matchPath p "/*" = true) ∧
    (matchPath "/api/123/details" "/api/*/details" = true ∧
     matchPath "/api/123" "/api/*/details" = false ∧
     matchPath "/api/1/2/details" "/api/*/details" = false ∧
     matchPath "/apix/123/details" "/api/*/details" = false) ∧
    (∀ p pat : String,
        goHasSfx (goPathClean pat) "/*" = false →
        goContainsCh (goPathClean pat) '*' = true →
        (pathSegs (goPathClean p)).length ≠ (pathSegs (goPathClean pat)).length →
        matchPath p pat = false) :=
  ⟨by decide, matchPath_star_all, by decide,
   fun _ _ hsfx hstar hlen => matchPath_seg_count hsfx hstar hlen⟩

/-- C8 witness: the universally quantified parts instantiated — /* matches
the concrete path /a/b/c, and /api/*/details (two != three segments)
rejects /api/123. -/
theorem c8_witness :
    matchPath "/a/b/c" "/*" = true ∧ matchPath "/api/123" "/api/*/details" = false :=
  ⟨c8_wildcard_semantics.2.1 "/a/b/c",
   c8_wildcard_semantics.2.2.2 "/api/123" "/api/*/details" (by decide) (by decide) (by decide)⟩

theorem sameShape_self (lb : LoadBalancer) : SameShape lb lb := ⟨rfl, fun _ => ⟨rfl, rfl⟩⟩

theorem sameShape_of_modify (lb lb' : LoadBalancer) (k : Nat) (f : Backend → Backend)
    (hck : lb'.healthCheckers = lb.healthCheckers)
    (hbk : lb'.backends = modifyAt lb.backends k f)
    (hf : ∀ b, (f b).name = b.name ∧ (f b).healthy = b.healthy) :
    SameShape lb lb' := by
  refine ⟨hck, fun i => ?_⟩
  rw [hbk, modifyAt_get?]
  by_cases hk : k = i
  · rw [if_pos hk]
    cases hx : lb.backends.get? i with
    | none => exact ⟨rfl, rfl⟩
    | some b => exact ⟨by simp [(hf b).1], by simp [(hf b).2]⟩
  · rw [if_neg hk]
    exact ⟨rfl, rfl⟩

theorem sameShape_rrPick (lb : LoadBalancer) (name : String) (hlist : List Nat) :
    SameShape lb (roundRobinForConfig lb name hlist).2 := by
  simp only [roundRobinForConfig]
  split
  · exact sameShape_self lb
  · split
    · exact sameShape_self lb
    · split
      · exact sameShape_self lb
      · exact sameShape_of_modify lb _ _ _ rfl rfl (fun b => ⟨rfl, rfl⟩)

theorem sameShape_lcPick (lb : LoadBalancer) (hlist : List Nat) :
    SameShape lb (leastConnections lb hlist).2 := by
  simp only [leastConnections]
  split
  · exact sameShape_self lb
  · split
    · exact sameShape_of_modify lb _ _ _ rfl rfl (fun b => ⟨rfl, rfl⟩)
    · exact sameShape_self lb

theorem sameShape_wPick (lb : LoadBalancer) (rnd : Int) (hlist : List Nat) :
    SameShape lb (weighted lb rnd hlist).2 := by
  simp only [weighted]
  split
  · exact sameShape_self lb
  · split
    · exact sameShape_rrPick lb "default" hlist
    · split
      · exact sameShape_self lb
      · split
        · exact sameShape_of_modify lb _ _ _ rfl rfl (fun b => ⟨rfl, rfl⟩)
        · split
          · exact sameShape_self lb
          · exact sameShape_self lb

theorem sameShape_pick (lb : LoadBalancer) (name : String) (rnd : Int) :
    SameShape lb (getBackendForConfig lb name rnd).2 := by
  simp only [getBackendForConfig]
  split
  · exact sameShape_self lb
  · split
    · exact sameShape_self lb
    · split
      · exact sameShape_self lb
      · split
        · exact sameShape_rrPick _ _ _
        · exact sameShape_lcPick _ _
        · exact sameShape_wPick _ _ _
        · exact sameShape_rrPick _ _ _

theorem sameShape_decConns (lb : LoadBalancer) (k : Nat) : SameShape lb (decConns lb k) :=
  sameShape_of_modify lb _ k _ rfl rfl (fun _ => ⟨rfl, rfl⟩)

theorem preserve_of_sameShape {lb lb' : LoadBalancer} (hs : SameShape lb lb') :
    lb'.healthCheckers = lb.healthCheckers ∧
    ∀ i b, lb.backends.get? i = some b →
      ∃ b', lb'.backends.get? i = some b' ∧ b'.name = b.name ∧
        (b'.healthy = true → b.healthy = true ∨ b.name ∈ lb.healthCheckers) := by
  obtain ⟨hck, hmap⟩ := hs
  refine ⟨hck, fun i b hb => ?_⟩
  obtain ⟨hn, hh⟩ := hmap i
  rw [hb] at hn hh
  cases hx : lb'.backends.get? i with
  | none =>
    rw [hx] at hn
    simp at hn
  | some b' =>
    rw [hx] at hn hh
    simp at hn hh
    refine ⟨b', rfl, hn, fun hbh => Or.inl ?_⟩
    rw [← hh]
    exact hbh

theorem setHealthyByName_cases (bs : List Backend) (n : String) (v : Bool) (i : Nat) (b : Backend)
    (h : bs.get? i = some b) :
    (setHealthyByName bs n v).get? i = some b ∨
    ((setHealthyByName bs n v).get? i = some { b with healthy := v } ∧ b.name = n) := by
  induction bs generalizing i with
  | nil => simp at h
  | cons x xs ih =>
    simp only [setHealthyByName]
    split
    · next hx =>
      cases i with
      | zero =>
        simp at h
        subst h
        right
        exact ⟨rfl, by simpa using hx⟩
      | succ j =>
        left
        simpa using h
    · cases i with
      | zero =>
        left
        simpa using h
      | succ j =>
        have := ih j (by simpa using h)
        simpa using this

theorem lbstep_preserves {lb lb' : LoadBalancer} (h : LBStep lb lb') :
    lb'.healthCheckers = lb.healthCheckers ∧
    ∀ i b, lb.backends.get? i = some b →
      ∃ b', lb'.backends.get? i = some b' ∧ b'.name = b.name ∧
        (b'.healthy = true → b.healthy = true ∨ b.name ∈ lb.healthCheckers) := by
  cases h with
  | pick name rnd => exact preserve_of_sameShape (sameShape_pick lb name rnd)
  | connDone i0 => exact preserve_of_sameShape (sameShape_decConns lb i0)
  | healthTick n v hn =>
    refine ⟨rfl, fun i b hb => ?_⟩
    rcases setHealthyByName_cases lb.backends n v i b hb with hcase | ⟨hcase, hname⟩
    · exact ⟨b, hcase, rfl, fun hbh => Or.inl hbh⟩
    · refine ⟨{ b with healthy := v }, hcase, rfl, fun _ => Or.inr ?_⟩
      rw [hname]
      exact hn
  | passiveFail i0 msg =>
    by_cases ht : isTransportErr msg = true
    · refine ⟨by simp [applyPassiveFailure, ht], fun i b hb => ?_⟩
      have hbk : (applyPassiveFailure lb i0 msg).backends =
          modifyAt lb.backends i0 (fun b => { b with healthy := false }) := by
        simp [applyPassiveFailure, ht]
      rw [hbk, modifyAt_get?]
      by_cases hi : i0 = i
      · rw [if_pos hi, hb]
        exact ⟨_, rfl, rfl, fun hfalse => by simp at hfalse⟩
      · rw [if_neg hi]
        exact ⟨b, hb, rfl, fun hbh => Or.inl hbh⟩
    · have ht' : isTransportErr msg = false := by simpa using ht
      rw [applyPassiveFailure_other ht']
      exact ⟨rfl, fun i b hb => ⟨b, hb, rfl, fun hbh => Or.inl hbh⟩⟩

theorem lbsteps_preserve {lb lb' : LoadBalancer} (h : Relation.ReflTransGen LBStep lb lb') :
    lb'.healthCheckers = lb.healthCheckers ∧
    ∀ i b, lb.backends.get? i = some b →
      ∃ b', lb'.backends.get? i = some b' ∧ b'.name = b.name ∧
        (b'.healthy = true → b.healthy = true ∨ b.name ∈ lb.healthCheckers) := by
  induction h with
  | refl => exact ⟨rfl, fun i b hb => ⟨b, hb, rfl, fun hh => Or.inl hh⟩⟩
  | tail hab hbc ih =>
    obtain ⟨hc1, hm1⟩ := ih
    obtain ⟨hc2, hm2⟩ := lbstep_preserves hbc
    refine ⟨Eq.trans hc2 hc1, fun i b hb => ?_⟩
    obtain ⟨b1, hb1, hname1, himpl1⟩ := hm1 i b hb
    obtain ⟨b2, hb2, hname2, himpl2⟩ := hm2 i b1 hb1
    refine ⟨b2, hb2, Eq.trans hname2 hname1, fun h2 => ?_⟩
    rcases himpl2 h2 with h1 | h1
    · exact himpl1 h1
    · right
      rw [hname1] at h1
      rw [hc1] at h1
      exact h1

theorem foldl_addConfig_healthy (configs : List BackendConfig) (lb : LoadBalancer)
    (h : ∀ b ∈ lb.backends, b.healthy = true) :
    ∀ b ∈ (configs.foldl addConfig lb).backends, b.healthy = true := by
  induction configs generalizing lb with
  | nil => exact h
  | cons c cs ih =>
    rw [List.foldl_cons]
    apply ih
    intro b hb
    simp only [addConfig] at hb
    rcases List.mem_append.mp hb with hb | hb
    · exact h b hb
    · obtain ⟨t, ht, rfl⟩ := List.mem_map.mp hb
      rfl

theorem foldl_addConfig_checkers (configs : List BackendConfig) (lb : LoadBalancer) :
    ∀ n ∈ (configs.foldl addConfig lb).healthCheckers,
      n ∈ lb.healthCheckers ∨
      ∃ cfg ∈ configs, cfg.healthCheck.enabled = true ∧
        ∃ t ∈ cfg.targets, n = cfg.name ++ "-" ++ t := by
  induction configs generalizing lb with
  | nil => exact fun n hn => Or.inl hn
  | cons c cs ih =>
    intro n hn
    rw [List.foldl_cons] at hn
    rcases ih (addConfig lb c) n hn with hn' | hn'
    · simp only [addConfig] at hn'
      rcases List.mem_append.mp hn' with h | h
      · exact Or.inl h
      · right
        by_cases he : c.healthCheck.enabled = true
        · rw [if_pos he] at h
          obtain ⟨t, ht, rfl⟩ := List.mem_map.mp h
          exact ⟨c, List.mem_cons_self _ _, he, t, ht, rfl⟩
        · rw [if_neg he] at h
          simp at h
    · right
      obtain ⟨cfg, hc, rest⟩ := hn'
      exact ⟨cfg, List.mem_cons_of_mem _ hc, rest⟩

/-- C10: a backend of a group with health checks disabled starts healthy
and registers no checker (every registered checker name stems from a group
with the check enabled); across any sequence of running-system operations
(picks, connection decrements, health ticks of registered checkers, passive
failures), a backend whose name has no registered checker never regains a
true healthy flag once it is false — and an unhealthy backend is never
selected. -/
theorem c10_unchecked_backend_stays_down :
    (∀ (configs : List BackendConfig) (lb : LoadBalancer),
        newLoadBalancer configs = some lb →
        (∀ b ∈ lb.backends, b.healthy = true) ∧
        (∀ n ∈ lb.healthCheckers, ∃ cfg ∈ configs, cfg.healthCheck.enabled = true ∧
            ∃ t ∈ cfg.targets, n = cfg.name ++ "-" ++ t)) ∧
    (∀ (lb lb' : LoadBalancer), Relation.ReflTransGen LBStep lb lb' →
        ∀ (i : Nat) (b : Backend), lb.backends.get? i = some b →
          b.name ∉ lb.healthCheckers → b.healthy = false →
          ∃ b', lb'.backends.get? i = some b' ∧ b'.healthy = false) ∧
    (∀ (lb : LoadBalancer) (name : String) (rnd : Int) (i : Nat),
        (getBackendForConfig lb name rnd).1 = some i → healthyAt lb i = true) := by
  refine ⟨?_, ?_, fun _ _ _ _ h => pick_some_healthy h⟩
  · intro configs lb h
    unfold newLoadBalancer at h
    split at h
    · simp at h
    · injection h with h
      subst h
      constructor
      · refine foldl_addConfig_healthy configs _ ?_
        intro b hb
        simp at hb
      · intro n hn
        rcases foldl_addConfig_checkers configs _ n hn with h' | h'
        · simp at h'
        · exact h'
  · intro lb lb' hsteps i b hb hnotin hdown
    obtain ⟨hck, hmap⟩ := lbsteps_preserve hsteps
    obtain ⟨b', hb', hname, himpl⟩ := hmap i b hb
    refine ⟨b', hb', ?_⟩
    cases hbh : b'.healthy
    · rfl
    · rcases himpl hbh with h1 | h1
      · rw [hdown] at h1
        exact absurd h1 (by simp)
      · exact absurd h1 hnotin

/-- C10 witness: the statement instantiated — g1's balancer starts healthy;
after the passive failure, one more pick step leaves backend 0 (which has
no checker) unhealthy; and a healthy balancer's pick only ever names
healthy backends. -/
theorem c10_witness :
    (∀ b ∈ lbG1.backends, b.healthy = true) ∧
    (∃ b', ((getBackendForConfig lbG1Down "g1" 0).2).backends.get? 0 = some b' ∧
        b'.healthy = false) ∧
    healthyAt lbDemo 0 = true :=
  ⟨(c10_unchecked_backend_stays_down.1 [cfgG1] lbG1 (by decide)).1,
   c10_unchecked_backend_stays_down.2.1 lbG1Down _
     (Relation.ReflTransGen.single (LBStep.pick lbG1Down "g1" 0)) 0
     { name := "g1-http://a", url := "http://a", weight := 1, healthy := false, connections := 0 }
     (by decide) (by decide) (by decide),
   c10_unchecked_backend_stays_down.2.2 lbDemo "g1" 0 0 (by decide)⟩

end QuicProxy
